import Mathlib

/-!
Verification of the two PlatformIO build-extension scripts of the
SerialCommandManager repository: `ensure_toolchain.py` (swaps the compiler
toolchain to MinGW on Windows) and `generate_coverage.py` (post-processes a
native test run into an HTML coverage report via `lcov`/`genhtml`).

The scripts are shallowly embedded. Effects are made explicit:
the build environment is a finite map from tool-role names to executable
names; the coverage reporter is a function of oracles describing the
filesystem (whether the coverage directory exists, whether `os.makedirs`
raises) and the outcome of each `subprocess.run` invocation, returning the
trace of observable events (console prints, directory creations, process
invocations), the files written by successful tool runs, and the uncaught
exception, if any, that propagates to the caller.
-/

namespace SCM

/-- The SCons/PlatformIO construction environment: a map from construction
variable names (such as CC, CXX, AR, RANLIB) to their values. -/
abbrev Env := String → Option String

/-- `env.Replace(k1=v1, ..., kn=vn)`: every listed variable is overwritten,
every other variable keeps its value. -/
def envReplace (e : Env) (upd : List (String × String)) : Env :=
  fun k =>
    match upd.lookup k with
    | some v => some v
    | none => e k

/-- `ensure_toolchain.py`: if `platform.system()` returns the string
"Windows", replace CC, CXX, AR and RANLIB with the MinGW executable names;
otherwise the script does nothing to the environment. -/
def ensure_toolchain (systemName : String) (e : Env) : Env :=
  if systemName = "Windows" then
    envReplace e [("CC", "gcc"), ("CXX", "g++"), ("AR", "ar"), ("RANLIB", "ranlib")]
  else e

/-- Outcome of one `subprocess.run([...], check=True)` call, as seen by the
caller: normal return, `FileNotFoundError` (executable absent), or
`subprocess.CalledProcessError` (nonzero exit) carrying its rendered detail. -/
inductive RunResult where
  | ok : RunResult
  | fileNotFound : RunResult
  | calledProcessError : String → RunResult
deriving DecidableEq

/-- Observable events of one invocation of the coverage reporter, in
chronological order: a console `print`, an `os.makedirs` call, and a
`subprocess.run` invocation with its argument vector. -/
inductive Event where
  | printed : String → Event
  | madeDirs : String → Event
  | ran : List String → Event
deriving DecidableEq

/-- Filesystem oracle: whether `os.path.exists(coverage_dir)` is true, and
whether `os.makedirs(coverage_dir)` raises an I/O error (with its message). -/
structure FsState where
  coverageDirExists : Bool
  makedirsError : Option String

/-- Result of one invocation of `generate_coverage_report`: the event trace,
the coverage files present afterwards (initial files plus the output file of
each successful tool run), and the exception, if any, that escapes. -/
structure Outcome where
  events : List Event
  files : List String
  uncaught : Option String
deriving DecidableEq

/-- `os.path.join` of two nonempty relative components on a POSIX host. -/
def joinPath (a b : String) : String := a ++ "/" ++ b

/-- The banner printed at the start of every invocation. -/
def introMsg : String := "Generating code coverage report..."

/-- The warning printed when a coverage tool executable is not found. -/
def installHintMsg : String :=
  "WARNING: lcov/genhtml not found. Install with: choco install lcov (Windows) or apt-get install lcov (Linux)"

/-- The warning printed when an invoked tool exits with nonzero status;
`e` is the rendered `CalledProcessError`. -/
def failMsg (e : String) : String := "WARNING: Coverage generation failed: " ++ e

/-- `build_dir = os.path.join(env.subst("$PROJECT_DIR"), ".pio", "build", "native")`. -/
def buildDir (projectDir : String) : String :=
  joinPath (joinPath (joinPath projectDir ".pio") "build") "native"

/-- `src_dir = os.path.join(env.subst("$PROJECT_DIR"), "src")`. -/
def srcDir (projectDir : String) : String := joinPath projectDir "src"

/-- `coverage_dir = os.path.join(env.subst("$PROJECT_DIR"), "coverage")`. -/
def coverageDir (projectDir : String) : String := joinPath projectDir "coverage"

/-- Argument vector of the first tool call: `lcov --capture`. -/
def lcovCaptureArgv (projectDir : String) : List String :=
  ["lcov", "--capture",
   "--directory", buildDir projectDir,
   "--output-file", joinPath (coverageDir projectDir) "coverage.info",
   "--rc", "lcov_branch_coverage=1"]

/-- Argument vector of the second tool call: `lcov --remove`. -/
def lcovRemoveArgv (projectDir : String) : List String :=
  ["lcov", "--remove", joinPath (coverageDir projectDir) "coverage.info",
   "/usr/*", "*/test/*", "*/.pio/*", "*/ArduinoFake/*",
   "--output-file", joinPath (coverageDir projectDir) "coverage_filtered.info",
   "--rc", "lcov_branch_coverage=1"]

/-- Argument vector of the third tool call: `genhtml`. -/
def genhtmlArgv (projectDir : String) : List String :=
  ["genhtml", joinPath (coverageDir projectDir) "coverage_filtered.info",
   "--output-directory", joinPath (coverageDir projectDir) "html",
   "--branch-coverage",
   "--title", "SerialCommandManager Code Coverage"]

/-- The success message: `f"Coverage report generated at: {...}"`. -/
def successMsg (projectDir : String) : String :=
  "Coverage report generated at: " ++
    joinPath (joinPath (coverageDir projectDir) "html") "index.html"

/-- The `try` block of `generate_coverage_report`: the three tool calls in
sequence, each guarded by `check=True`; `FileNotFoundError` and
`CalledProcessError` are caught by the handlers, which print a warning, so
the block never lets an exception escape. Returns the events of the block
(including the handler's print) and the output files of successful runs. -/
def coverageTryBlock (projectDir : String) (run : List String → RunResult) :
    List Event × List String :=
  let capArgv := lcovCaptureArgv projectDir
  let capOut := joinPath (coverageDir projectDir) "coverage.info"
  match run capArgv with
  | RunResult.fileNotFound =>
      ([Event.ran capArgv, Event.printed installHintMsg], [])
  | RunResult.calledProcessError e =>
      ([Event.ran capArgv, Event.printed (failMsg e)], [])
  | RunResult.ok =>
    let remArgv := lcovRemoveArgv projectDir
    let remOut := joinPath (coverageDir projectDir) "coverage_filtered.info"
    match run remArgv with
    | RunResult.fileNotFound =>
        ([Event.ran capArgv, Event.ran remArgv, Event.printed installHintMsg], [capOut])
    | RunResult.calledProcessError e =>
        ([Event.ran capArgv, Event.ran remArgv, Event.printed (failMsg e)], [capOut])
    | RunResult.ok =>
      let genArgv := genhtmlArgv projectDir
      match run genArgv with
      | RunResult.fileNotFound =>
          ([Event.ran capArgv, Event.ran remArgv, Event.ran genArgv,
            Event.printed installHintMsg], [capOut, remOut])
      | RunResult.calledProcessError e =>
          ([Event.ran capArgv, Event.ran remArgv, Event.ran genArgv,
            Event.printed (failMsg e)], [capOut, remOut])
      | RunResult.ok =>
          ([Event.ran capArgv, Event.ran remArgv, Event.ran genArgv,
            Event.printed (successMsg projectDir)],
           [capOut, remOut,
            joinPath (joinPath (coverageDir projectDir) "html") "index.html"])

/-- `generate_coverage_report` of `generate_coverage.py`: print the banner,
derive the three paths, create the coverage directory when absent (an
I/O error there escapes uncaught), then execute the guarded tool sequence. -/
def generate_coverage_report (projectDir : String) (fs : FsState)
    (run : List String → RunResult) (files0 : List String) : Outcome :=
  let cdir := coverageDir projectDir
  if fs.coverageDirExists then
    let r := coverageTryBlock projectDir run
    { events := Event.printed introMsg :: r.1
      files := files0 ++ r.2
      uncaught := none }
  else
    match fs.makedirsError with
    | some err =>
        { events := [Event.printed introMsg]
          files := files0
          uncaught := some err }
    | none =>
        let r := coverageTryBlock projectDir run
        { events := Event.printed introMsg :: Event.madeDirs cdir :: r.1
          files := files0 ++ r.2
          uncaught := none }

/-- A `run` oracle under which every tool executable is missing. -/
def runAllNotFound : List String → RunResult := fun _ => RunResult.fileNotFound

/-- A `run` oracle under which every tool invocation succeeds. -/
def runAllOk : List String → RunResult := fun _ => RunResult.ok

/-- A `run` oracle under which the capture step succeeds and every later
step exits nonzero. -/
def runCapOkThenFail : List String → RunResult := fun argv =>
  if argv = lcovCaptureArgv "/proj" then RunResult.ok
  else RunResult.calledProcessError "exit 1"

/-- C2: on Windows the toolchain selector binds CC, CXX, AR, RANLIB to the
MinGW executable names gcc, g++, ar, ranlib. -/
theorem ensure_toolchain_windows (e : Env) (s : String) (h : s = "Windows") :
    ensure_toolchain s e "CC" = some "gcc" ∧
    ensure_toolchain s e "CXX" = some "g++" ∧
    ensure_toolchain s e "AR" = some "ar" ∧
    ensure_toolchain s e "RANLIB" = some "ranlib" := by
  subst h
  refine ⟨?_, ?_, ?_, ?_⟩ <;> simp [ensure_toolchain, envReplace, List.lookup]

/-- Witness for C2 at a concrete environment. -/
theorem ensure_toolchain_windows_witness :
    ensure_toolchain "Windows" (fun _ => none) "CC" = some "gcc" ∧
    ensure_toolchain "Windows" (fun _ => none) "CXX" = some "g++" ∧
    ensure_toolchain "Windows" (fun _ => none) "AR" = some "ar" ∧
    ensure_toolchain "Windows" (fun _ => none) "RANLIB" = some "ranlib" :=
  ensure_toolchain_windows (fun _ => none) "Windows" rfl

/-- C3: on any platform other than Windows the toolchain selector changes
no binding of the build environment. -/
theorem ensure_toolchain_nonwindows (e : Env) (s : String) (h : s ≠ "Windows") :
    ∀ k, ensure_toolchain s e k = e k := by
  intro k
  simp [ensure_toolchain, h]

/-- Witness for C3 on the Linux platform name. -/
theorem ensure_toolchain_nonwindows_witness :
    ensure_toolchain "Linux" (fun k => some k) "CC" = (fun k => some k) "CC" :=
  ensure_toolchain_nonwindows (fun k => some k) "Linux" (by decide) "CC"

/-- C10: on Windows the toolchain selector changes only the four bindings
CC, CXX, AR, RANLIB; any other binding is unchanged. -/
theorem ensure_toolchain_windows_frame (e : Env) (s k : String) (h : s = "Windows")
    (h1 : k ≠ "CC") (h2 : k ≠ "CXX") (h3 : k ≠ "AR") (h4 : k ≠ "RANLIB") :
    ensure_toolchain s e k = e k := by
  subst h
  have e1 : (k == "CC") = false := beq_eq_false_iff_ne.mpr h1
  have e2 : (k == "CXX") = false := beq_eq_false_iff_ne.mpr h2
  have e3 : (k == "AR") = false := beq_eq_false_iff_ne.mpr h3
  have e4 : (k == "RANLIB") = false := beq_eq_false_iff_ne.mpr h4
  simp [ensure_toolchain, envReplace, List.lookup, e1, e2, e3, e4]

/-- Witness for C10 at the binding LINKFLAGS of a concrete environment. -/
theorem ensure_toolchain_windows_frame_witness :
    ensure_toolchain "Windows" (fun _ => some "x") "LINKFLAGS" =
      (fun _ => some "x") "LINKFLAGS" :=
  ensure_toolchain_windows_frame (fun _ => some "x") "Windows" "LINKFLAGS" rfl
    (by decide) (by decide) (by decide) (by decide)

/-- C1: both recognized error conditions of a tool invocation — missing
executable and nonzero exit — are caught and downgraded to a printed
warning (the installation hint, resp. the failure warning carrying the
error detail), and no exception escapes the reporter. -/
theorem coverage_errors_downgraded (pd : String) (ex : Bool)
    (run : List String → RunResult) (files0 : List String) :
    (generate_coverage_report pd ⟨ex, none⟩ run files0).uncaught = none ∧
    (run (lcovCaptureArgv pd) = RunResult.fileNotFound →
      Event.printed installHintMsg ∈ (generate_coverage_report pd ⟨ex, none⟩ run files0).events) ∧
    (∀ d, run (lcovCaptureArgv pd) = RunResult.calledProcessError d →
      Event.printed (failMsg d) ∈ (generate_coverage_report pd ⟨ex, none⟩ run files0).events) ∧
    (run (lcovCaptureArgv pd) = RunResult.ok →
      run (lcovRemoveArgv pd) = RunResult.fileNotFound →
      Event.printed installHintMsg ∈ (generate_coverage_report pd ⟨ex, none⟩ run files0).events) ∧
    (∀ d, run (lcovCaptureArgv pd) = RunResult.ok →
      run (lcovRemoveArgv pd) = RunResult.calledProcessError d →
      Event.printed (failMsg d) ∈ (generate_coverage_report pd ⟨ex, none⟩ run files0).events) ∧
    (run (lcovCaptureArgv pd) = RunResult.ok →
      run (lcovRemoveArgv pd) = RunResult.ok →
      run (genhtmlArgv pd) = RunResult.fileNotFound →
      Event.printed installHintMsg ∈ (generate_coverage_report pd ⟨ex, none⟩ run files0).events) ∧
    (∀ d, run (lcovCaptureArgv pd) = RunResult.ok →
      run (lcovRemoveArgv pd) = RunResult.ok →
      run (genhtmlArgv pd) = RunResult.calledProcessError d →
      Event.printed (failMsg d) ∈ (generate_coverage_report pd ⟨ex, none⟩ run files0).events) := by
  refine ⟨?_, ?_, ?_, ?_, ?_, ?_, ?_⟩
  · cases ex <;> simp [generate_coverage_report]
  · intro h
    cases ex <;> simp [generate_coverage_report, coverageTryBlock, h]
  · intro d h
    cases ex <;> simp [generate_coverage_report, coverageTryBlock, h]
  · intro h1 h2
    cases ex <;> simp [generate_coverage_report, coverageTryBlock, h1, h2]
  · intro d h1 h2
    cases ex <;> simp [generate_coverage_report, coverageTryBlock, h1, h2]
  · intro h1 h2 h3
    cases ex <;> simp [generate_coverage_report, coverageTryBlock, h1, h2, h3]
  · intro d h1 h2 h3
    cases ex <;> simp [generate_coverage_report, coverageTryBlock, h1, h2, h3]

/-- Witness for C1: with every executable missing, the invocation ends with
no escaping exception and the installation hint printed. -/
theorem coverage_errors_downgraded_witness :
    (generate_coverage_report "/proj" ⟨true, none⟩ runAllNotFound []).uncaught = none ∧
    Event.printed installHintMsg ∈
      (generate_coverage_report "/proj" ⟨true, none⟩ runAllNotFound []).events := by
  have h := coverage_errors_downgraded "/proj" true runAllNotFound []
  exact ⟨h.1, h.2.1 rfl⟩

/-- C4: on an invocation where every tool run succeeds, the trace is exactly:
the banner, the directory creation when the directory was absent, then
`lcov --capture` over the build directory into coverage/coverage.info with
branch coverage, then `lcov --remove` with the four exclusion patterns into
coverage/coverage_filtered.info, then `genhtml` into coverage/html with
branch coverage and the fixed title, then the success message — in this
order, each invocation completing before the next. -/
theorem coverage_invocation_sequence (pd : String) (ex : Bool)
    (run : List String → RunResult) (files0 : List String)
    (hc : run (lcovCaptureArgv pd) = RunResult.ok)
    (hr : run (lcovRemoveArgv pd) = RunResult.ok)
    (hg : run (genhtmlArgv pd) = RunResult.ok) :
    (generate_coverage_report pd ⟨ex, none⟩ run files0).events =
      Event.printed introMsg ::
        ((if ex then [] else [Event.madeDirs (pd ++ "/coverage")]) ++
          [Event.ran ["lcov", "--capture",
              "--directory", pd ++ "/.pio/build/native",
              "--output-file", pd ++ "/coverage/coverage.info",
              "--rc", "lcov_branch_coverage=1"],
           Event.ran ["lcov", "--remove", pd ++ "/coverage/coverage.info",
              "/usr/*", "*/test/*", "*/.pio/*", "*/ArduinoFake/*",
              "--output-file", pd ++ "/coverage/coverage_filtered.info",
              "--rc", "lcov_branch_coverage=1"],
           Event.ran ["genhtml", pd ++ "/coverage/coverage_filtered.info",
              "--output-directory", pd ++ "/coverage/html",
              "--branch-coverage",
              "--title", "SerialCommandManager Code Coverage"],
           Event.printed (successMsg pd)]) := by
  cases ex <;>
    (simp only [generate_coverage_report, coverageTryBlock, hc, hr, hg]
     simp [lcovCaptureArgv, lcovRemoveArgv, genhtmlArgv, buildDir, coverageDir,
       joinPath, String.append_assoc])

/-- Witness for C4 at a concrete project directory with the coverage
directory initially absent. -/
theorem coverage_invocation_sequence_witness :
    (generate_coverage_report "/proj" ⟨false, none⟩ runAllOk []).events =
      Event.printed introMsg ::
        ((if false then [] else [Event.madeDirs ("/proj" ++ "/coverage")]) ++
          [Event.ran ["lcov", "--capture",
              "--directory", "/proj" ++ "/.pio/build/native",
              "--output-file", "/proj" ++ "/coverage/coverage.info",
              "--rc", "lcov_branch_coverage=1"],
           Event.ran ["lcov", "--remove", "/proj" ++ "/coverage/coverage.info",
              "/usr/*", "*/test/*", "*/.pio/*", "*/ArduinoFake/*",
              "--output-file", "/proj" ++ "/coverage/coverage_filtered.info",
              "--rc", "lcov_branch_coverage=1"],
           Event.ran ["genhtml", "/proj" ++ "/coverage/coverage_filtered.info",
              "--output-directory", "/proj" ++ "/coverage/html",
              "--branch-coverage",
              "--title", "SerialCommandManager Code Coverage"],
           Event.printed (successMsg "/proj")]) :=
  coverage_invocation_sequence "/proj" false runAllOk [] rfl rfl rfl

/-- The guarded tool sequence never creates a directory. -/
theorem coverageTryBlock_no_madeDirs (pd : String) (run : List String → RunResult)
    (p : String) : Event.madeDirs p ∉ (coverageTryBlock pd run).1 := by
  cases h1 : run (lcovCaptureArgv pd) <;>
    cases h2 : run (lcovRemoveArgv pd) <;>
      cases h3 : run (genhtmlArgv pd) <;>
        simp [coverageTryBlock, h1, h2, h3]

/-- C5: the coverage output directory is ensured before any tool call: when
absent it is created (the creation event precedes every process invocation
in the trace), and when present no creation is attempted and the reporter
does not fail. -/
theorem coverage_dir_ensured (pd : String) (ex : Bool) (mr : Option String)
    (run : List String → RunResult) (files0 : List String) :
    (ex = true →
      (∀ p, Event.madeDirs p ∉ (generate_coverage_report pd ⟨ex, mr⟩ run files0).events) ∧
      (generate_coverage_report pd ⟨ex, mr⟩ run files0).uncaught = none) ∧
    (ex = false → mr = none →
      (generate_coverage_report pd ⟨ex, mr⟩ run files0).events.get? 1 =
        some (Event.madeDirs (coverageDir pd)) ∧
      ∀ i argv,
        (generate_coverage_report pd ⟨ex, mr⟩ run files0).events.get? i =
          some (Event.ran argv) →
        ∃ j, j < i ∧
          (generate_coverage_report pd ⟨ex, mr⟩ run files0).events.get? j =
            some (Event.madeDirs (coverageDir pd))) := by
  constructor
  · intro hex
    subst hex
    constructor
    · intro p h
      simp [generate_coverage_report] at h
      exact coverageTryBlock_no_madeDirs pd run p h
    · simp [generate_coverage_report]
  · intro hex hmr
    subst hex
    subst hmr
    constructor
    · simp [generate_coverage_report, List.get?]
    · intro i argv h
      have h0 : i ≠ 0 := by
        rintro rfl
        simp [generate_coverage_report, List.get?] at h
      have h1 : i ≠ 1 := by
        rintro rfl
        simp [generate_coverage_report, List.get?] at h
      exact ⟨1, by omega, by simp [generate_coverage_report, List.get?]⟩

/-- Witness for C5: with the directory initially absent, the creation event
is the second trace entry. -/
theorem coverage_dir_ensured_witness :
    (generate_coverage_report "/proj" ⟨false, none⟩ runAllOk []).events.get? 1 =
      some (Event.madeDirs (coverageDir "/proj")) :=
  ((coverage_dir_ensured "/proj" false none runAllOk []).2 rfl rfl).1

/-- C6: on full success the reporter prints a message whose text ends in
coverage/html/index.html, the entry page of the generated report. -/
theorem coverage_success_prints_report_path (pd : String) (ex : Bool)
    (run : List String → RunResult) (files0 : List String)
    (hc : run (lcovCaptureArgv pd) = RunResult.ok)
    (hr : run (lcovRemoveArgv pd) = RunResult.ok)
    (hg : run (genhtmlArgv pd) = RunResult.ok) :
    ∃ s, Event.printed s ∈ (generate_coverage_report pd ⟨ex, none⟩ run files0).events ∧
      List.IsSuffix ("coverage/html/index.html".data) s.data := by
  refine ⟨successMsg pd, ?_, ?_⟩
  · cases ex <;> simp [generate_coverage_report, coverageTryBlock, hc, hr, hg]
  · have h : successMsg pd =
        ("Coverage report generated at: " ++ pd ++ "/") ++ "coverage/html/index.html" := by
      simp [successMsg, joinPath, coverageDir, String.append_assoc]
    rw [h, String.data_append]
    exact List.suffix_append _ _

/-- Witness for C6 at a concrete project directory. -/
theorem coverage_success_prints_report_path_witness :
    ∃ s, Event.printed s ∈ (generate_coverage_report "/proj" ⟨true, none⟩ runAllOk []).events ∧
      List.IsSuffix ("coverage/html/index.html".data) s.data :=
  coverage_success_prints_report_path "/proj" true runAllOk [] rfl rfl rfl

/-- C7: an I/O error raised by `os.makedirs` while creating the coverage
directory is not caught: it propagates to the caller, and no tool is
invoked. -/
theorem coverage_mkdir_error_propagates (pd err : String)
    (run : List String → RunResult) (files0 : List String) :
    (generate_coverage_report pd ⟨false, some err⟩ run files0).uncaught = some err ∧
    ∀ argv, Event.ran argv ∉
      (generate_coverage_report pd ⟨false, some err⟩ run files0).events := by
  constructor
  · simp [generate_coverage_report]
  · intro argv
    simp [generate_coverage_report]

/-- A successful capture step leaves coverage.info among the files of the
guarded sequence, whatever the later steps do. -/
theorem coverageTryBlock_keeps_capture_output (pd : String)
    (run : List String → RunResult) (h : run (lcovCaptureArgv pd) = RunResult.ok) :
    joinPath (coverageDir pd) "coverage.info" ∈ (coverageTryBlock pd run).2 := by
  cases h2 : run (lcovRemoveArgv pd) <;>
    cases h3 : run (genhtmlArgv pd) <;>
      simp [coverageTryBlock, h, h2, h3]

/-- C8: no partial-result cleanup: every pre-existing file survives the
invocation, and after a successful capture step coverage/coverage.info is
left in place whatever happens to the later steps. -/
theorem coverage_no_cleanup (pd : String) (ex : Bool)
    (run : List String → RunResult) (files0 : List String) :
    (∀ f, f ∈ files0 → f ∈ (generate_coverage_report pd ⟨ex, none⟩ run files0).files) ∧
    (run (lcovCaptureArgv pd) = RunResult.ok →
      joinPath (coverageDir pd) "coverage.info" ∈
        (generate_coverage_report pd ⟨ex, none⟩ run files0).files) := by
  constructor
  · intro f hf
    cases ex <;> simp [generate_coverage_report, hf]
  · intro h
    cases ex <;>
      simp [generate_coverage_report, coverageTryBlock_keeps_capture_output pd run h]

/-- Witness for C8: capture succeeds, the filter step exits nonzero, and
coverage.info is still present afterwards. -/
theorem coverage_no_cleanup_witness :
    joinPath (coverageDir "/proj") "coverage.info" ∈
      (generate_coverage_report "/proj" ⟨true, none⟩ runCapOkThenFail []).files :=
  (coverage_no_cleanup "/proj" true runCapOkThenFail []).2 (by decide)

/-- The first character of a string survives appending to its right. -/
theorem head_append (p q : String) (c : Char) (hp : p.data.head? = some c) :
    (p ++ q).data.head? = some c := by
  rw [String.data_append]
  cases hd : p.data with
  | nil => simp [hd] at hp
  | cons a l =>
      rw [hd] at hp
      simp at hp
      simp [hd, hp]

/-- Strings starting with different characters are different. -/
theorem string_ne_of_head (s t : String) (c d : Char)
    (hs : s.data.head? = some c) (ht : t.data.head? = some d) (hcd : c ≠ d) :
    s ≠ t := by
  intro h
  rw [h, ht] at hs
  exact hcd (Option.some.inj hs).symm

/-- The success message starts with the letter C. -/
theorem successMsg_head (pd : String) : (successMsg pd).data.head? = some 'C' := by
  unfold successMsg
  exact head_append _ _ _ (by decide)

/-- The nonzero-exit warning starts with the letter W. -/
theorem failMsg_head (d : String) : (failMsg d).data.head? = some 'W' := by
  unfold failMsg
  exact head_append _ _ _ (by decide)

/-- The success message is never the banner. -/
theorem successMsg_ne_introMsg (pd : String) : successMsg pd ≠ introMsg :=
  string_ne_of_head _ _ 'C' 'G' (successMsg_head pd) (by decide) (by decide)

/-- The success message is never the installation hint. -/
theorem successMsg_ne_installHintMsg (pd : String) : successMsg pd ≠ installHintMsg :=
  string_ne_of_head _ _ 'C' 'W' (successMsg_head pd) (by decide) (by decide)

/-- The success message is never a nonzero-exit warning. -/
theorem successMsg_ne_failMsg (pd d : String) : successMsg pd ≠ failMsg d :=
  string_ne_of_head _ _ 'C' 'W' (successMsg_head pd) (failMsg_head d) (by decide)

/-- C9: a failing tool invocation short-circuits the reporter: if the
capture step does not succeed, the filter and HTML steps are never invoked;
if the filter step does not succeed, the HTML step is never invoked; and
whenever any step does not succeed, the success message is never printed. -/
theorem coverage_failure_short_circuits (pd : String) (ex : Bool)
    (run : List String → RunResult) (files0 : List String) :
    (run (lcovCaptureArgv pd) ≠ RunResult.ok →
      Event.ran (lcovRemoveArgv pd) ∉
        (generate_coverage_report pd ⟨ex, none⟩ run files0).events ∧
      Event.ran (genhtmlArgv pd) ∉
        (generate_coverage_report pd ⟨ex, none⟩ run files0).events ∧
      Event.printed (successMsg pd) ∉
        (generate_coverage_report pd ⟨ex, none⟩ run files0).events) ∧
    (run (lcovRemoveArgv pd) ≠ RunResult.ok →
      Event.ran (genhtmlArgv pd) ∉
        (generate_coverage_report pd ⟨ex, none⟩ run files0).events ∧
      Event.printed (successMsg pd) ∉
        (generate_coverage_report pd ⟨ex, none⟩ run files0).events) ∧
    (run (genhtmlArgv pd) ≠ RunResult.ok →
      Event.printed (successMsg pd) ∉
        (generate_coverage_report pd ⟨ex, none⟩ run files0).events) := by
  refine ⟨?_, ?_, ?_⟩
  · intro hne
    cases ex <;>
      cases hc : run (lcovCaptureArgv pd) <;>
        cases hr : run (lcovRemoveArgv pd) <;>
          cases hg : run (genhtmlArgv pd) <;>
            (try exact absurd hc hne) <;>
            (simp only [generate_coverage_report, coverageTryBlock, hc, hr, hg]
             simp [lcovCaptureArgv, lcovRemoveArgv, genhtmlArgv,
               buildDir, coverageDir, joinPath,
               successMsg_ne_introMsg, successMsg_ne_installHintMsg,
               successMsg_ne_failMsg])
  · intro hne
    cases ex <;>
      cases hc : run (lcovCaptureArgv pd) <;>
        cases hr : run (lcovRemoveArgv pd) <;>
          cases hg : run (genhtmlArgv pd) <;>
            (try exact absurd hr hne) <;>
            (simp only [generate_coverage_report, coverageTryBlock, hc, hr, hg]
             simp [lcovCaptureArgv, lcovRemoveArgv, genhtmlArgv,
               buildDir, coverageDir, joinPath,
               successMsg_ne_introMsg, successMsg_ne_installHintMsg,
               successMsg_ne_failMsg])
  · intro hne
    cases ex <;>
      cases hc : run (lcovCaptureArgv pd) <;>
        cases hr : run (lcovRemoveArgv pd) <;>
          cases hg : run (genhtmlArgv pd) <;>
            (try exact absurd hg hne) <;>
            (simp only [generate_coverage_report, coverageTryBlock, hc, hr, hg]
             simp [lcovCaptureArgv, lcovRemoveArgv, genhtmlArgv,
               buildDir, coverageDir, joinPath,
               successMsg_ne_introMsg, successMsg_ne_installHintMsg,
               successMsg_ne_failMsg])

/-- Witness for C9: with every executable missing, the filter step is never
invoked. -/
theorem coverage_failure_short_circuits_witness :
    Event.ran (lcovRemoveArgv "/proj") ∉
      (generate_coverage_report "/proj" ⟨true, none⟩ runAllNotFound []).events :=
  ((coverage_failure_short_circuits "/proj" true runAllNotFound []).1 (by decide)).1

end SCM
